import Mathlib

/-!
# Core 0 of the Pico W Wi-Fi / MQTT firmware

Shallow embedding of `main.c`, `main_auxiliar.c` and `funcoes_neopixel.h`.

* C globals become the fields of `Estado`; every C function becomes a function on `Estado`.
* Calls into the drivers (OLED, PWM, MQTT client, stdio, sleep) are recorded, in call order,
  in the trace `Estado.efeitos`; the drivers are taken not to write the globals modelled here.
* The inter-core hardware FIFO is the list `Estado.fifo` of the words pending in it.
  A blocking pop on an empty FIFO does not return; the functions that may block return `Option`
  and `none` stands for "blocked".
* Clock readings (`get_absolute_time`, also inside `make_timeout_time_ms`) and the value
  returned by `rand()` are explicit arguments, one per call in the source.
* `uint16_t` / `uint32_t` / `uint8_t` values are `Nat` with explicit `% 2^w`.
* `absolute_time_t` is a `Nat` number of microseconds since boot.
-/

namespace MqttNucleo0

/-! ## Data model -/

/-- The queue element `MensagemWiFi`: two `uint16_t` fields, as built in `verificar_fifo`
(`{.tentativa = tentativa, .status = status}`). -/
structure MensagemWiFi where
  tentativa : Nat
  status : Nat
deriving DecidableEq, Repr

/-- Modelled from the spec: the bounded event queue `FilaCircular` (`fila_circular.h` and its
implementation are not among the sources). Spec 3: "ring buffer of StatusEvent, capacity C fixed
at construction, with a count/occupancy invariant 0 ≤ occupancy ≤ C. Insertion order is
preserved". The contents are kept oldest first; the occupancy is the length of `itens`. -/
structure FilaCircular where
  capacidade : Nat
  itens : List MensagemWiFi
deriving DecidableEq, Repr

/-- Modelled from the spec: occupancy of the queue. -/
def FilaCircular.ocupacao (f : FilaCircular) : Nat := f.itens.length

/-- Modelled from the spec: `fila_inicializar` (spec 4.1 `initialize()`): "resets occupancy
to 0, clears buffer". -/
def fila_inicializar (f : FilaCircular) : FilaCircular :=
  { f with itens := [] }

/-- Modelled from the spec: `fila_inserir` (spec 4.1 `try_enqueue`): "returns false without
mutation if occupancy == capacity; otherwise appends at the tail, increments occupancy,
returns true". -/
def fila_inserir (f : FilaCircular) (msg : MensagemWiFi) : Bool × FilaCircular :=
  if f.ocupacao = f.capacidade then (false, f)
  else (true, { f with itens := f.itens ++ [msg] })

/-- Modelled from the spec: `fila_remover` (spec 4.1 `try_dequeue`): "returns empty if
occupancy == 0; otherwise removes and returns the head element, decrements occupancy". -/
def fila_remover (f : FilaCircular) : Option MensagemWiFi × FilaCircular :=
  match f.itens with
  | [] => (none, f)
  | m :: resto => (some m, { f with itens := resto })

/-- One call into an external collaborator, with the arguments that matter. -/
inductive Efeito where
  | stdio_init_all
  | setup_init_oled
  | init_rgb_pwm
  | multicore_launch_core1
  | oled_clear
  | render_on_display
  | ssd1306_draw_utf8_multiline (x y : Nat) (texto : String)
  | ssd1306_draw_utf8_string (x y : Nat) (texto : String)
  | sleep_ms (ms : Nat)
  | printf (texto : String)
  | set_rgb_pwm (r g b : Nat)
  | inicializar_aleatorio
  | iniciar_mqtt_cliente
  | publicar_mensagem_mqtt (texto : String)
deriving DecidableEq, Repr

/-- The globals of core 0 (`main.c`, `main_auxiliar.c`, `estado_mqtt.h`), the words pending
in the hardware FIFO and the trace of driver calls. -/
structure Estado where
  fila_wifi : FilaCircular
  proximo_envio : Nat
  mensagem_str : String
  ip_recebido : Bool
  aleatorio_inicializado : Bool
  ultimo_ip_bin : Nat
  mqtt_iniciado : Bool
  fifo : List Nat
  efeitos : List Efeito
deriving DecidableEq, Repr

/-- Append driver calls to the trace. -/
def emitir (s : Estado) (es : List Efeito) : Estado :=
  { s with efeitos := s.efeitos ++ es }

/-- The constant `INTERVALO_PING_MS` (`#define INTERVALO_PING_MS 5000`). -/
def INTERVALO_PING_MS : Nat := 5000

/-- The struct `CorRGB`: three `uint16_t` channels. -/
structure CorRGB where
  r : Nat
  g : Nat
  b : Nat
deriving DecidableEq, Repr

/-- The table `cores_fortes` of `main_auxiliar.c`. -/
def cores_fortes : List CorRGB :=
  [ ⟨65535, 0, 0⟩, ⟨0, 65535, 0⟩, ⟨0, 0, 65535⟩,
    ⟨65535, 65535, 0⟩, ⟨65535, 0, 65535⟩, ⟨0, 65535, 65535⟩ ]

/-! ## Library behaviour used by the code -/

/-- Keep the longest run of leading characters whose UTF-8 encoding fits in `n` bytes. -/
def truncar_bytes : Nat → List Char → List Char
  | _, [] => []
  | n, c :: cs => if c.utf8Size ≤ n then c :: truncar_bytes (n - c.utf8Size) cs else []

/-- Library call `snprintf(buf, tam, ...)` applied to the already formatted text: at most
`tam - 1` bytes are stored, followed by the terminator. (When the cut falls inside a
multi-byte character the C library stores part of it; here the whole character is left
out.) -/
def snprintf (tam : Nat) (texto : String) : String :=
  ⟨truncar_bytes (tam - 1) texto.data⟩

/-- Library call `make_timeout_time_ms(ms)` evaluated when the clock reads `agora`
(microseconds). -/
def make_timeout_time_ms (agora ms : Nat) : Nat := agora + ms * 1000

/-- Library call `absolute_time_diff_us(de, ate)`: signed difference `ate - de` in
microseconds. -/
def absolute_time_diff_us (de ate : Nat) : Int := (ate : Int) - (de : Int)

/-- Library call `multicore_fifo_rvalid()`. -/
def multicore_fifo_rvalid (s : Estado) : Bool := !s.fifo.isEmpty

/-- Library call `multicore_fifo_pop_blocking()`: the oldest pending word, as a `uint32_t`;
`none` when nothing is pending (the call blocks). -/
def multicore_fifo_pop_blocking (s : Estado) : Option (Nat × Estado) :=
  match s.fifo with
  | [] => none
  | w :: resto => some (w % 4294967296, { s with fifo := resto })

/-! ## `funcoes_neopixel.h` -/

/-- Source function `numero_aleatorio(min, max)` with `rand()` returning `r` (never
negative): `uint16_t` arguments and result, the sum computed in `int`. -/
def numero_aleatorio (min max : Nat) (r : Nat) : Nat :=
  if min ≥ max then min
  else (min + r % (max - min + 1)) % 65536

/-! ## `main_auxiliar.c` -/

/-- Source function `espera_usb`, when `stdio_usb_connected()` answers false `esperas`
times and then true. -/
def espera_usb (esperas : Nat) (s : Estado) : Estado :=
  emitir s (List.replicate esperas (Efeito.sleep_ms 200) ++
    [Efeito.printf "Conexão USB estabelecida!\n"])

/-- The `switch (msg.status)` of `tratar_mensagem`: description and the arguments of
`set_rgb_pwm`. `PWM_STEP` comes from `rgb_pwm_control.h`, which is not among the sources. -/
def escolher_status (PWM_STEP : Nat) (status : Nat) : String × (Nat × Nat × Nat) :=
  match status with
  | 0 => ("INICIALIZANDO", (PWM_STEP, 0, 0))
  | 1 => ("CONECTADO", (0, PWM_STEP, 0))
  | 2 => ("FALHA", (0, 0, PWM_STEP))
  | _ => ("DESCONHECIDO", (PWM_STEP, PWM_STEP, PWM_STEP))

/-- The index `idx` drawn in the ping branch of `tratar_mensagem`:
`numero_aleatorio(0, num_cores - 1)`, the second argument converted to `uint16_t`. -/
def indice_sorteado (r : Nat) : Nat :=
  numero_aleatorio 0 ((cores_fortes.length - 1) % 65536) r

/-- Source function `tratar_mensagem(msg)`; `r` is what `rand()` returns if it is called.
The table read `cores_fortes[idx]` is `getD`: a read past the table has no defined value in C
(`indice_sorteado_eq` shows the index stays below the table size). -/
def tratar_mensagem (PWM_STEP : Nat) (r : Nat) (s : Estado) (msg : MensagemWiFi) : Estado :=
  if msg.tentativa = 0x9999 then
    let s1 :=
      if s.aleatorio_inicializado = false then
        { emitir s [Efeito.inicializar_aleatorio] with aleatorio_inicializado := true }
      else s
    let idx := indice_sorteado r
    let cor := cores_fortes.getD idx ⟨0, 0, 0⟩
    emitir s1
      [ Efeito.set_rgb_pwm cor.r cor.g cor.b,
        Efeito.printf ("[MQTT] PING recebido. Cor forte sorteada: (R=" ++ toString cor.r ++
          ", G=" ++ toString cor.g ++ ", B=" ++ toString cor.b ++ ")\n"),
        Efeito.ssd1306_draw_utf8_multiline 0 32 "ACK do PING OK",
        Efeito.render_on_display,
        Efeito.sleep_ms 1000 ]
  else
    let escolha := escolher_status PWM_STEP msg.status
    let descricao := escolha.1
    let linha_status := snprintf 32 ("Status do Wi-Fi : " ++ descricao)
    emitir s
      [ Efeito.set_rgb_pwm escolha.2.1 escolha.2.2.1 escolha.2.2.2,
        Efeito.ssd1306_draw_utf8_multiline 0 0 linha_status,
        Efeito.render_on_display,
        Efeito.sleep_ms 3000,
        Efeito.oled_clear,
        Efeito.render_on_display,
        Efeito.printf ("[NÚCLEO 0] Status: " ++ descricao ++ "\n") ]

/-- Source function `tratar_ip_binario(ip_bin)`. -/
def tratar_ip_binario (s : Estado) (ip_bin : Nat) : Estado :=
  let ip0 := ((ip_bin >>> 24) &&& 0xFF) % 256
  let ip1 := ((ip_bin >>> 16) &&& 0xFF) % 256
  let ip2 := ((ip_bin >>> 8) &&& 0xFF) % 256
  let ip3 := (ip_bin &&& 0xFF) % 256
  let ip_str := snprintf 20
    (toString ip0 ++ "." ++ toString ip1 ++ "." ++ toString ip2 ++ "." ++ toString ip3)
  { emitir s
      [ Efeito.oled_clear,
        Efeito.ssd1306_draw_utf8_string 0 0 ip_str,
        Efeito.render_on_display,
        Efeito.printf ("[NÚCLEO 0] Endereço IP: " ++ ip_str ++ "\n") ]
    with ultimo_ip_bin := ip_bin }

/-! ## `main.c` -/

/-- Driver calls of the "Status inválido" branch of `verificar_fifo`. -/
def diagnostico_status_invalido (mensagem_str : String) : List Efeito :=
  [ Efeito.ssd1306_draw_utf8_multiline 0 0 "Status inválido.",
    Efeito.render_on_display,
    Efeito.sleep_ms 3000,
    Efeito.oled_clear,
    Efeito.render_on_display,
    Efeito.printf (mensagem_str ++ "\n") ]

/-- Driver calls of the "Fila cheia" branch of `verificar_fifo`. -/
def diagnostico_fila_cheia : List Efeito :=
  [ Efeito.ssd1306_draw_utf8_multiline 0 0 "Fila cheia. Descartado.",
    Efeito.render_on_display,
    Efeito.sleep_ms 3000,
    Efeito.oled_clear,
    Efeito.render_on_display,
    Efeito.printf "Fila cheia. Mensagem descartada.\n" ]

/-- Source function `verificar_fifo()`. `none`: a blocking pop found the FIFO empty. -/
def verificar_fifo (s : Estado) : Option Estado :=
  if multicore_fifo_rvalid s = false then some s
  else
    match multicore_fifo_pop_blocking s with
    | none => none
    | some (pacote, s1) =>
      let tentativa := (pacote >>> 16) % 65536
      if tentativa = 0xFFFE then
        match multicore_fifo_pop_blocking s1 with
        | none => none
        | some (ip_bin, s2) =>
          some { tratar_ip_binario s2 ip_bin with ip_recebido := true }
      else
        let status := (pacote &&& 0xFFFF) % 65536
        if status > 2 ∧ tentativa ≠ 0x9999 then
          let texto := snprintf 50
            ("Status inválido: " ++ toString status ++ " (tentativa " ++
              toString tentativa ++ ")")
          some (emitir { s1 with mensagem_str := texto } (diagnostico_status_invalido texto))
        else
          let msg : MensagemWiFi := { tentativa := tentativa, status := status }
          match fila_inserir s1.fila_wifi msg with
          | (true, f) => some { s1 with fila_wifi := f }
          | (false, f) => some (emitir { s1 with fila_wifi := f } diagnostico_fila_cheia)

/-- Source function `tratar_fila()`. -/
def tratar_fila (PWM_STEP : Nat) (r : Nat) (s : Estado) : Estado :=
  match fila_remover s.fila_wifi with
  | (some msg_recebida, f) => tratar_mensagem PWM_STEP r { s with fila_wifi := f } msg_recebida
  | (none, f) => { s with fila_wifi := f }

/-- Source function `inicializar_mqtt_se_preciso()`; `agora` is the clock reading inside
`make_timeout_time_ms`. -/
def inicializar_mqtt_se_preciso (s : Estado) (agora : Nat) : Estado :=
  if s.mqtt_iniciado = false ∧ s.ultimo_ip_bin ≠ 0 then
    { emitir s
        [ Efeito.printf "[MQTT] Iniciando cliente MQTT...\n",
          Efeito.iniciar_mqtt_cliente ]
      with mqtt_iniciado := true
           proximo_envio := make_timeout_time_ms agora INTERVALO_PING_MS }
  else s

/-- Source function `enviar_ping_periodico()`; `agora` is what `get_absolute_time()` returns
in the test, `agora_rearme` the clock reading inside `make_timeout_time_ms`. -/
def enviar_ping_periodico (s : Estado) (agora agora_rearme : Nat) : Estado :=
  if s.mqtt_iniciado = true ∧ absolute_time_diff_us agora s.proximo_envio ≤ 0 then
    { emitir s
        [ Efeito.publicar_mensagem_mqtt "PING",
          Efeito.printf "[MQTT] PING publicado\n",
          Efeito.ssd1306_draw_utf8_multiline 0 0 "PING enviado...",
          Efeito.render_on_display ]
      with proximo_envio := make_timeout_time_ms agora_rearme INTERVALO_PING_MS }
  else s

/-- Source function `inicia_hardware()`. -/
def inicia_hardware (esperas : Nat) (s : Estado) : Estado :=
  emitir
    (espera_usb esperas (emitir s [Efeito.stdio_init_all, Efeito.setup_init_oled]))
    [Efeito.oled_clear, Efeito.render_on_display]

/-- Source function `inicia_core1()`. -/
def inicia_core1 (s : Estado) : Estado :=
  let s1 := emitir s
    [ Efeito.ssd1306_draw_utf8_multiline 0 0 "Núcleo 0",
      Efeito.ssd1306_draw_utf8_multiline 0 16 "Iniciando!",
      Efeito.render_on_display,
      Efeito.sleep_ms 3000,
      Efeito.oled_clear,
      Efeito.render_on_display,
      Efeito.printf ">> Núcleo 0 iniciado. Aguardando mensagens do núcleo 1...\n",
      Efeito.init_rgb_pwm ]
  emitir { s1 with fila_wifi := fila_inicializar s1.fila_wifi }
    [Efeito.multicore_launch_core1]

/-- What the environment supplies to one iteration of the loop of `main`: the words core 1
has pushed since the previous poll, the value of `rand()`, and the three clock readings. -/
structure Entrada where
  chegadas : List Nat
  rand : Nat
  t_mqtt : Nat
  t_ping : Nat
  t_rearme : Nat
deriving DecidableEq, Repr

/-- The body of `while (true)` in `main`. -/
def iteracao (PWM_STEP : Nat) (s : Estado) (e : Entrada) : Option Estado :=
  match verificar_fifo { s with fifo := s.fifo ++ e.chegadas } with
  | none => none
  | some s1 =>
    let s2 := tratar_fila PWM_STEP e.rand s1
    let s3 := inicializar_mqtt_se_preciso s2 e.t_mqtt
    let s4 := enviar_ping_periodico s3 e.t_ping e.t_rearme
    some (emitir s4 [Efeito.sleep_ms 50])

/-- The loop of `main` run for one iteration per element of the list. -/
def laco (PWM_STEP : Nat) : Estado → List Entrada → Option Estado
  | s, [] => some s
  | s, e :: es =>
    match iteracao PWM_STEP s e with
    | none => none
    | some s1 => laco PWM_STEP s1 es

/-- Source function `main()`: start-up followed by the iterations the list describes. -/
def main (PWM_STEP : Nat) (esperas : Nat) (s : Estado) (es : List Entrada) : Option Estado :=
  laco PWM_STEP (inicia_core1 (inicia_hardware esperas s)) es

/-! ## Helper definitions used to state the properties -/

/-- A message the validation of `verificar_fifo` lets through: a special signal
(`tentativa == 0x9999`) or a status report with `status` in 0..2. -/
def mensagem_valida (m : MensagemWiFi) : Prop :=
  m.tentativa = 0x9999 ∨ m.status ≤ 2

/-- Recogniser of the calls of `set_rgb_pwm` in a trace. -/
def e_set_rgb_pwm : Efeito → Bool
  | Efeito.set_rgb_pwm _ _ _ => true
  | _ => false

/-- Number of calls of `iniciar_mqtt_cliente` recorded in the trace. -/
def partidas_mqtt (s : Estado) : Nat :=
  s.efeitos.count Efeito.iniciar_mqtt_cliente

/-- Number of publications of "PING" recorded in the trace. -/
def pings_publicados (s : Estado) : Nat :=
  s.efeitos.count (Efeito.publicar_mensagem_mqtt "PING")

/-- Number of times the "Fila cheia" message was drawn. -/
def descartes_fila_cheia (s : Estado) : Nat :=
  s.efeitos.count (Efeito.ssd1306_draw_utf8_multiline 0 0 "Fila cheia. Descartado.")

/-- A sequence of calls of `inicializar_mqtt_se_preciso`, one per list element `(ip, agora)`:
before the call the rest of the program has left `ip` in `ultimo_ip_bin`, and the clock
reads `agora` during the call. -/
def chamadas_inicializar_mqtt : Estado → List (Nat × Nat) → Estado
  | s, [] => s
  | s, (ip, agora) :: resto =>
    chamadas_inicializar_mqtt
      (inicializar_mqtt_se_preciso { s with ultimo_ip_bin := ip } agora) resto

/-! ## Arithmetic of the wire format -/

theorem desloca16 (w : Nat) : w >>> 16 = w / 65536 := by
  simp [Nat.shiftRight_eq_div_pow]

theorem mascara16 (w : Nat) : w &&& 0xFFFF = w % 65536 := by
  have h := Nat.and_pow_two_sub_one_eq_mod w 16
  simpa using h

theorem palavra_ip_eq (X : Nat) (hX : X < 65536) :
    ((0xFFFE <<< 16) ||| X) = 65536 * 0xFFFE + X := by
  have h := Nat.mul_add_lt_is_or (i := 16) (b := X) (by simpa using hX) 0xFFFE
  have e : (0xFFFE <<< 16 : Nat) = 2 ^ 16 * 0xFFFE := by decide
  rw [e, ← h]

/-! ## The transport codec: `verificar_fifo` -/

theorem verificar_fifo_vazio (s : Estado) (hf : s.fifo = []) : verificar_fifo s = some s := by
  simp [verificar_fifo, multicore_fifo_rvalid, hf]

theorem verificar_fifo_ip (s : Estado) (w ip : Nat) (resto : List Nat)
    (hf : s.fifo = w :: ip :: resto)
    (ht : (w % 4294967296) >>> 16 % 65536 = 0xFFFE) :
    verificar_fifo s =
      some { tratar_ip_binario { s with fifo := resto } (ip % 4294967296)
             with ip_recebido := true } := by
  unfold verificar_fifo
  simp only [multicore_fifo_rvalid, multicore_fifo_pop_blocking, hf, List.isEmpty_cons,
    Bool.not_false, Bool.true_eq_false, if_false, ht, if_true]

theorem verificar_fifo_bloqueado (s : Estado) (w : Nat) (hf : s.fifo = [w])
    (ht : (w % 4294967296) >>> 16 % 65536 = 0xFFFE) :
    verificar_fifo s = none := by
  unfold verificar_fifo
  simp only [multicore_fifo_rvalid, multicore_fifo_pop_blocking, hf, List.isEmpty_cons,
    Bool.not_false, Bool.true_eq_false, if_false, ht, if_true]

theorem verificar_fifo_invalido (s : Estado) (w : Nat) (resto : List Nat)
    (hf : s.fifo = w :: resto)
    (ht : (w % 4294967296) >>> 16 % 65536 ≠ 0xFFFE)
    (hv : ((w % 4294967296) &&& 0xFFFF) % 65536 > 2 ∧
      (w % 4294967296) >>> 16 % 65536 ≠ 0x9999) :
    verificar_fifo s =
      some (emitir
        { s with
          fifo := resto
          mensagem_str := snprintf 50
            ("Status inválido: " ++ toString (((w % 4294967296) &&& 0xFFFF) % 65536) ++
              " (tentativa " ++ toString ((w % 4294967296) >>> 16 % 65536) ++ ")") }
        (diagnostico_status_invalido (snprintf 50
            ("Status inválido: " ++ toString (((w % 4294967296) &&& 0xFFFF) % 65536) ++
              " (tentativa " ++ toString ((w % 4294967296) >>> 16 % 65536) ++ ")")))) := by
  unfold verificar_fifo
  simp only [multicore_fifo_rvalid, multicore_fifo_pop_blocking, hf, List.isEmpty_cons,
    Bool.not_false, Bool.true_eq_false, if_false, if_neg ht, if_pos hv]

theorem verificar_fifo_aceito (s : Estado) (w : Nat) (resto : List Nat)
    (hf : s.fifo = w :: resto)
    (ht : (w % 4294967296) >>> 16 % 65536 ≠ 0xFFFE)
    (hv : ¬ (((w % 4294967296) &&& 0xFFFF) % 65536 > 2 ∧
      (w % 4294967296) >>> 16 % 65536 ≠ 0x9999)) :
    verificar_fifo s =
      (match fila_inserir s.fila_wifi
          { tentativa := (w % 4294967296) >>> 16 % 65536,
            status := ((w % 4294967296) &&& 0xFFFF) % 65536 } with
        | (true, f) => some { s with fifo := resto, fila_wifi := f }
        | (false, f) =>
          some (emitir { s with fifo := resto, fila_wifi := f } diagnostico_fila_cheia)) := by
  unfold verificar_fifo
  simp only [multicore_fifo_rvalid, multicore_fifo_pop_blocking, hf, List.isEmpty_cons,
    Bool.not_false, Bool.true_eq_false, if_false, if_neg ht, if_neg hv]

theorem palavra32_tentativa (w : Nat) (hw : w < 4294967296) :
    (w % 4294967296) >>> 16 % 65536 = w >>> 16 := by
  rw [Nat.mod_eq_of_lt hw, desloca16]; omega

theorem palavra32_status (w : Nat) (hw : w < 4294967296) :
    ((w % 4294967296) &&& 0xFFFF) % 65536 = w &&& 0xFFFF := by
  rw [Nat.mod_eq_of_lt hw, mascara16]; omega

/-- Every returning call of `verificar_fifo` leaves the queue contents alone or appends one
valid message. -/
theorem fila_apos_verificar_fifo (t t1 : Estado) (h : verificar_fifo t = some t1) :
    t1.fila_wifi.itens = t.fila_wifi.itens ∨
    ∃ m, t1.fila_wifi.itens = t.fila_wifi.itens ++ [m] ∧ mensagem_valida m := by
  cases hf : t.fifo with
  | nil =>
    rw [verificar_fifo_vazio t hf] at h
    cases h; exact Or.inl rfl
  | cons w resto =>
    by_cases ht : (w % 4294967296) >>> 16 % 65536 = 0xFFFE
    · cases resto with
      | nil => rw [verificar_fifo_bloqueado t w hf ht] at h; cases h
      | cons ip r2 =>
        rw [verificar_fifo_ip t w ip r2 hf ht] at h
        cases h; exact Or.inl rfl
    · by_cases hv : ((w % 4294967296) &&& 0xFFFF) % 65536 > 2 ∧
          (w % 4294967296) >>> 16 % 65536 ≠ 0x9999
      · rw [verificar_fifo_invalido t w resto hf ht hv] at h
        cases h; exact Or.inl rfl
      · rw [verificar_fifo_aceito t w resto hf ht hv] at h
        by_cases hq : t.fila_wifi.ocupacao = t.fila_wifi.capacidade
        · simp only [fila_inserir, hq, if_true] at h
          cases h; exact Or.inl rfl
        · simp only [fila_inserir, hq, if_false] at h
          cases h
          refine Or.inr ⟨_, rfl, ?_⟩
          unfold mensagem_valida
          simp only
          omega

/-- Claim C1: when the FIFO holds the pair `((0xFFFE << 16) | X, ADDR)`, with `X` a 16-bit
and `ADDR` a 32-bit value, `verificar_fifo` returns, has popped both words, leaves
`ultimo_ip_bin = ADDR` and `ip_recebido = true`, leaves the queue (full or not) and the
messaging state as they were, and the only driver calls are those of `tratar_ip_binario`
(no discard diagnostic). -/
theorem verificar_fifo_pacote_ip (X ADDR : Nat) (hX : X < 65536) (hA : ADDR < 4294967296)
    (s : Estado) (resto : List Nat)
    (hf : s.fifo = ((0xFFFE <<< 16) ||| X) :: ADDR :: resto) :
    verificar_fifo s =
      some { tratar_ip_binario { s with fifo := resto } ADDR with ip_recebido := true } ∧
    (∀ s1, verificar_fifo s = some s1 →
      s1.fifo = resto ∧
      s1.ultimo_ip_bin = ADDR ∧
      s1.ip_recebido = true ∧
      s1.fila_wifi = s.fila_wifi ∧
      s1.mqtt_iniciado = s.mqtt_iniciado ∧
      s1.proximo_envio = s.proximo_envio ∧
      s1.efeitos = (tratar_ip_binario s ADDR).efeitos ∧
      descartes_fila_cheia s1 = descartes_fila_cheia s) := by
  have h1 : (((0xFFFE <<< 16) ||| X) % 4294967296) >>> 16 % 65536 = 0xFFFE := by
    rw [palavra_ip_eq X hX, desloca16]; omega
  have h2 : ADDR % 4294967296 = ADDR := Nat.mod_eq_of_lt hA
  have h := verificar_fifo_ip s _ ADDR resto hf h1
  rw [h2] at h
  refine ⟨h, ?_⟩
  intro s1 hs1
  rw [h] at hs1
  cases hs1
  refine ⟨rfl, rfl, rfl, rfl, rfl, rfl, rfl, ?_⟩
  simp [descartes_fila_cheia, tratar_ip_binario, emitir, List.count_cons]

/-- Witness for C1: `X = 0x1234`, `ADDR = 0xC0A80164` and a full queue of capacity 1. -/
theorem verificar_fifo_pacote_ip_witness :
    Option.map Estado.ultimo_ip_bin (verificar_fifo
        { fila_wifi := ⟨1, [⟨1, 0⟩]⟩, proximo_envio := 0, mensagem_str := "",
          ip_recebido := false, aleatorio_inicializado := false, ultimo_ip_bin := 0,
          mqtt_iniciado := false,
          fifo := [((0xFFFE <<< 16) ||| 0x1234), 0xC0A80164, 7], efeitos := [] }) =
      some 0xC0A80164 ∧
    Option.map Estado.fila_wifi (verificar_fifo
        { fila_wifi := ⟨1, [⟨1, 0⟩]⟩, proximo_envio := 0, mensagem_str := "",
          ip_recebido := false, aleatorio_inicializado := false, ultimo_ip_bin := 0,
          mqtt_iniciado := false,
          fifo := [((0xFFFE <<< 16) ||| 0x1234), 0xC0A80164, 7], efeitos := [] }) =
      some ⟨1, [⟨1, 0⟩]⟩ := by
  have h := (verificar_fifo_pacote_ip 0x1234 0xC0A80164 (by decide) (by decide)
      { fila_wifi := ⟨1, [⟨1, 0⟩]⟩, proximo_envio := 0, mensagem_str := "",
        ip_recebido := false, aleatorio_inicializado := false, ultimo_ip_bin := 0,
        mqtt_iniciado := false,
        fifo := [((0xFFFE <<< 16) ||| 0x1234), 0xC0A80164, 7], efeitos := [] } [7] rfl).1
  rw [h]
  exact ⟨rfl, rfl⟩

/-- Claim C2: for a 32-bit FIFO word whose high half is neither 0xFFFE nor 0x9999 and whose
low half is greater than 2, `verificar_fifo` returns after consuming the word; the queue
(contents and occupancy), `ultimo_ip_bin`, `mqtt_iniciado` and `proximo_envio` are unchanged,
and the trace gains exactly the "Status inválido." display sequence followed by the log line
with the formatted text, which is also what `mensagem_str` holds. -/
theorem verificar_fifo_status_invalido (w : Nat) (hw : w < 4294967296)
    (s : Estado) (resto : List Nat) (hf : s.fifo = w :: resto)
    (h1 : w >>> 16 ≠ 0xFFFE) (h2 : w >>> 16 ≠ 0x9999) (h3 : w &&& 0xFFFF > 2) :
    verificar_fifo s =
      some { s with
        fifo := resto
        mensagem_str := snprintf 50
          ("Status inválido: " ++ toString (w &&& 0xFFFF) ++
            " (tentativa " ++ toString (w >>> 16) ++ ")")
        efeitos := s.efeitos ++
          [ Efeito.ssd1306_draw_utf8_multiline 0 0 "Status inválido.",
            Efeito.render_on_display,
            Efeito.sleep_ms 3000,
            Efeito.oled_clear,
            Efeito.render_on_display,
            Efeito.printf (snprintf 50
              ("Status inválido: " ++ toString (w &&& 0xFFFF) ++
                " (tentativa " ++ toString (w >>> 16) ++ ")") ++ "\n") ] } ∧
    (∀ s1, verificar_fifo s = some s1 →
      s1.fila_wifi = s.fila_wifi ∧
      s1.fila_wifi.ocupacao = s.fila_wifi.ocupacao ∧
      s1.ultimo_ip_bin = s.ultimo_ip_bin ∧
      s1.mqtt_iniciado = s.mqtt_iniciado ∧
      s1.proximo_envio = s.proximo_envio) := by
  have ht := palavra32_tentativa w hw
  have hs := palavra32_status w hw
  have h := verificar_fifo_invalido s w resto hf (by rw [ht]; exact h1)
    (by rw [ht, hs]; exact ⟨h3, h2⟩)
  rw [ht, hs] at h
  refine ⟨h, ?_⟩
  intro s1 hs1
  rw [h] at hs1
  cases hs1
  exact ⟨rfl, rfl, rfl, rfl, rfl⟩

/-- Witness for C2: the word with `tentativa = 5`, `status = 9` and a queue holding one
message. -/
theorem verificar_fifo_status_invalido_witness :
    Option.map Estado.fila_wifi (verificar_fifo
        { fila_wifi := ⟨4, [⟨1, 0⟩]⟩, proximo_envio := 0, mensagem_str := "",
          ip_recebido := false, aleatorio_inicializado := false, ultimo_ip_bin := 0,
          mqtt_iniciado := false, fifo := [5 * 65536 + 9], efeitos := [] }) =
      some ⟨4, [⟨1, 0⟩]⟩ ∧
    Option.map Estado.mensagem_str (verificar_fifo
        { fila_wifi := ⟨4, [⟨1, 0⟩]⟩, proximo_envio := 0, mensagem_str := "",
          ip_recebido := false, aleatorio_inicializado := false, ultimo_ip_bin := 0,
          mqtt_iniciado := false, fifo := [5 * 65536 + 9], efeitos := [] }) =
      some "Status inválido: 9 (tentativa 5)" := by
  have h := (verificar_fifo_status_invalido (5 * 65536 + 9) (by decide)
      { fila_wifi := ⟨4, [⟨1, 0⟩]⟩, proximo_envio := 0, mensagem_str := "",
        ip_recebido := false, aleatorio_inicializado := false, ultimo_ip_bin := 0,
        mqtt_iniciado := false, fifo := [5 * 65536 + 9], efeitos := [] } [] rfl
      (by decide) (by decide) (by decide)).1
  rw [h]
  exact ⟨rfl, by decide⟩

/-- Claim C3 (with the queue modelled from the spec): for a 32-bit FIFO word `w` whose high
half is not 0xFFFE and with `(w & 0xFFFF) <= 2` or `(w >> 16) == 0x9999`, and a queue that is
not full, `verificar_fifo` returns after consuming the word, the queue gains exactly the one
message `{tentativa = w >> 16, status = w & 0xFFFF}` at its tail, `tentativa * 65536 + status`
is `w`, and nothing else changes (no driver call, so no diagnostic). Moreover, from any state,
a call that returns either leaves the queue contents as they were or appends one message that
is a special signal or has `status <= 2`. -/
theorem verificar_fifo_enfileira (w : Nat) (hw : w < 4294967296)
    (s : Estado) (resto : List Nat) (hf : s.fifo = w :: resto)
    (h1 : w >>> 16 ≠ 0xFFFE) (h2 : w &&& 0xFFFF ≤ 2 ∨ w >>> 16 = 0x9999)
    (hq : s.fila_wifi.ocupacao ≠ s.fila_wifi.capacidade) :
    verificar_fifo s =
      some { s with
        fifo := resto
        fila_wifi := { s.fila_wifi with
          itens := s.fila_wifi.itens ++ [{ tentativa := w >>> 16, status := w &&& 0xFFFF }] } } ∧
    (w >>> 16) * 65536 + (w &&& 0xFFFF) = w ∧
    (∀ s1, verificar_fifo s = some s1 →
      s1.fila_wifi.ocupacao = s.fila_wifi.ocupacao + 1 ∧ s1.efeitos = s.efeitos) ∧
    (∀ t t1 : Estado, verificar_fifo t = some t1 →
      t1.fila_wifi.itens = t.fila_wifi.itens ∨
      ∃ m, t1.fila_wifi.itens = t.fila_wifi.itens ++ [m] ∧ mensagem_valida m) := by
  have ht := palavra32_tentativa w hw
  have hs := palavra32_status w hw
  have h := verificar_fifo_aceito s w resto hf (by rw [ht]; exact h1)
    (by rw [ht, hs]; omega)
  rw [ht, hs] at h
  have hi : fila_inserir s.fila_wifi { tentativa := w >>> 16, status := w &&& 0xFFFF } =
      (true, { s.fila_wifi with
        itens := s.fila_wifi.itens ++ [{ tentativa := w >>> 16, status := w &&& 0xFFFF }] }) := by
    simp [fila_inserir, hq]
  rw [hi] at h
  refine ⟨h, ?_, ?_, ?_⟩
  · rw [desloca16, mascara16]; omega
  · intro s1 hs1
    rw [h] at hs1
    cases hs1
    simp [FilaCircular.ocupacao]
  · intro t t1 ht1
    exact fila_apos_verificar_fifo t t1 ht1

/-- Witness for C3: the word `2 * 65536 + 1` arriving at an empty queue of capacity 4. -/
theorem verificar_fifo_enfileira_witness :
    verificar_fifo
        { fila_wifi := ⟨4, []⟩, proximo_envio := 0, mensagem_str := "",
          ip_recebido := false, aleatorio_inicializado := false, ultimo_ip_bin := 0,
          mqtt_iniciado := false, fifo := [2 * 65536 + 1], efeitos := [] } =
      some
        { fila_wifi := ⟨4, [⟨(2 * 65536 + 1) >>> 16, (2 * 65536 + 1) &&& 0xFFFF⟩]⟩,
          proximo_envio := 0, mensagem_str := "",
          ip_recebido := false, aleatorio_inicializado := false, ultimo_ip_bin := 0,
          mqtt_iniciado := false, fifo := [], efeitos := [] } :=
  (verificar_fifo_enfileira (2 * 65536 + 1) (by decide)
      { fila_wifi := ⟨4, []⟩, proximo_envio := 0, mensagem_str := "",
        ip_recebido := false, aleatorio_inicializado := false, ultimo_ip_bin := 0,
        mqtt_iniciado := false, fifo := [2 * 65536 + 1], efeitos := [] } [] rfl
      (by decide) (Or.inl (by decide)) (by decide)).1

/-- Claim C8 (with the queue modelled from the spec): for a full queue and an accepted status
word (high half not 0xFFFE, and `status <= 2` or `tentativa == 0x9999`), `verificar_fifo`
returns after consuming the word, the queue is exactly as before (the refused `fila_inserir`
changes nothing), the trace gains exactly the "Fila cheia. Descartado." display sequence and
its log line, and every other global is unchanged. -/
theorem verificar_fifo_fila_cheia (w : Nat) (hw : w < 4294967296)
    (s : Estado) (resto : List Nat) (hf : s.fifo = w :: resto)
    (h1 : w >>> 16 ≠ 0xFFFE) (h2 : w &&& 0xFFFF ≤ 2 ∨ w >>> 16 = 0x9999)
    (hq : s.fila_wifi.ocupacao = s.fila_wifi.capacidade) :
    fila_inserir s.fila_wifi { tentativa := w >>> 16, status := w &&& 0xFFFF } =
      (false, s.fila_wifi) ∧
    verificar_fifo s =
      some { s with
        fifo := resto
        efeitos := s.efeitos ++
          [ Efeito.ssd1306_draw_utf8_multiline 0 0 "Fila cheia. Descartado.",
            Efeito.render_on_display,
            Efeito.sleep_ms 3000,
            Efeito.oled_clear,
            Efeito.render_on_display,
            Efeito.printf "Fila cheia. Mensagem descartada.\n" ] } ∧
    (∀ s1, verificar_fifo s = some s1 →
      s1.fila_wifi = s.fila_wifi ∧
      s1.fila_wifi.ocupacao = s.fila_wifi.ocupacao ∧
      s1.ultimo_ip_bin = s.ultimo_ip_bin ∧
      s1.mqtt_iniciado = s.mqtt_iniciado ∧
      s1.proximo_envio = s.proximo_envio) := by
  have ht := palavra32_tentativa w hw
  have hs := palavra32_status w hw
  have h := verificar_fifo_aceito s w resto hf (by rw [ht]; exact h1)
    (by rw [ht, hs]; omega)
  rw [ht, hs] at h
  have hi : fila_inserir s.fila_wifi { tentativa := w >>> 16, status := w &&& 0xFFFF } =
      (false, s.fila_wifi) := by
    simp [fila_inserir, hq]
  rw [hi] at h
  refine ⟨hi, h, ?_⟩
  intro s1 hs1
  rw [h] at hs1
  cases hs1
  exact ⟨rfl, rfl, rfl, rfl, rfl⟩

/-- Witness for C8: the ping signal `0x9999` arriving at a full queue of capacity 1. -/
theorem verificar_fifo_fila_cheia_witness :
    verificar_fifo
        { fila_wifi := ⟨1, [⟨1, 0⟩]⟩, proximo_envio := 0, mensagem_str := "",
          ip_recebido := false, aleatorio_inicializado := false, ultimo_ip_bin := 0,
          mqtt_iniciado := false, fifo := [0x9999 * 65536], efeitos := [] } =
      some
        { fila_wifi := ⟨1, [⟨1, 0⟩]⟩, proximo_envio := 0, mensagem_str := "",
          ip_recebido := false, aleatorio_inicializado := false, ultimo_ip_bin := 0,
          mqtt_iniciado := false, fifo := [],
          efeitos :=
            [ Efeito.ssd1306_draw_utf8_multiline 0 0 "Fila cheia. Descartado.",
              Efeito.render_on_display,
              Efeito.sleep_ms 3000,
              Efeito.oled_clear,
              Efeito.render_on_display,
              Efeito.printf "Fila cheia. Mensagem descartada.\n" ] } :=
  (verificar_fifo_fila_cheia (0x9999 * 65536) (by decide)
      { fila_wifi := ⟨1, [⟨1, 0⟩]⟩, proximo_envio := 0, mensagem_str := "",
        ip_recebido := false, aleatorio_inicializado := false, ultimo_ip_bin := 0,
        mqtt_iniciado := false, fifo := [0x9999 * 65536], efeitos := [] } [] rfl
      (by decide) (Or.inr (by decide)) rfl).2.1

/-! ## The reducer: `tratar_mensagem` -/

theorem escolher_status_casos (PWM_STEP status : Nat) :
    escolher_status PWM_STEP status = ("INICIALIZANDO", (PWM_STEP, 0, 0)) ∧ status = 0 ∨
    escolher_status PWM_STEP status = ("CONECTADO", (0, PWM_STEP, 0)) ∧ status = 1 ∨
    escolher_status PWM_STEP status = ("FALHA", (0, 0, PWM_STEP)) ∧ status = 2 ∨
    escolher_status PWM_STEP status = ("DESCONHECIDO", (PWM_STEP, PWM_STEP, PWM_STEP)) ∧
      2 < status := by
  match status with
  | 0 => exact Or.inl ⟨rfl, rfl⟩
  | 1 => exact Or.inr (Or.inl ⟨rfl, rfl⟩)
  | 2 => exact Or.inr (Or.inr (Or.inl ⟨rfl, rfl⟩))
  | n + 3 => exact Or.inr (Or.inr (Or.inr ⟨rfl, by omega⟩))

theorem tratar_mensagem_status (PWM_STEP r : Nat) (s : Estado) (msg : MensagemWiFi)
    (ht : msg.tentativa ≠ 0x9999) :
    tratar_mensagem PWM_STEP r s msg =
      emitir s
        [ Efeito.set_rgb_pwm (escolher_status PWM_STEP msg.status).2.1
            (escolher_status PWM_STEP msg.status).2.2.1
            (escolher_status PWM_STEP msg.status).2.2.2,
          Efeito.ssd1306_draw_utf8_multiline 0 0
            (snprintf 32 ("Status do Wi-Fi : " ++ (escolher_status PWM_STEP msg.status).1)),
          Efeito.render_on_display,
          Efeito.sleep_ms 3000,
          Efeito.oled_clear,
          Efeito.render_on_display,
          Efeito.printf
            ("[NÚCLEO 0] Status: " ++ (escolher_status PWM_STEP msg.status).1 ++ "\n") ] := by
  unfold tratar_mensagem
  simp only [if_neg ht]

theorem snprintf_inicializando :
    snprintf 32 ("Status do Wi-Fi : " ++ "INICIALIZANDO") = "Status do Wi-Fi : INICIALIZANDO" := by
  decide

theorem snprintf_conectado :
    snprintf 32 ("Status do Wi-Fi : " ++ "CONECTADO") = "Status do Wi-Fi : CONECTADO" := by
  decide

theorem snprintf_falha :
    snprintf 32 ("Status do Wi-Fi : " ++ "FALHA") = "Status do Wi-Fi : FALHA" := by
  decide

theorem snprintf_desconhecido :
    snprintf 32 ("Status do Wi-Fi : " ++ "DESCONHECIDO") = "Status do Wi-Fi : DESCONHECIDO" := by
  decide

/-- Claim C4: for a message with `status` in 0..2 and `tentativa != 0x9999`, `tratar_mensagem`
takes exactly one of the three named outcomes: status 0 drives `set_rgb_pwm(PWM_STEP, 0, 0)`
and shows "INICIALIZANDO", status 1 drives `(0, PWM_STEP, 0)` and shows "CONECTADO", status 2
drives `(0, 0, PWM_STEP)` and shows "FALHA"; the description is never "DESCONHECIDO", and the
call adds exactly one `set_rgb_pwm` to the trace. -/
theorem tratar_mensagem_status_conhecido (PWM_STEP r : Nat) (s : Estado) (msg : MensagemWiFi)
    (hs : msg.status ≤ 2) (ht : msg.tentativa ≠ 0x9999) :
    (msg.status = 0 ∨ msg.status = 1 ∨ msg.status = 2) ∧
    (msg.status = 0 →
      tratar_mensagem PWM_STEP r s msg =
        { s with efeitos := s.efeitos ++
          [ Efeito.set_rgb_pwm PWM_STEP 0 0,
            Efeito.ssd1306_draw_utf8_multiline 0 0 "Status do Wi-Fi : INICIALIZANDO",
            Efeito.render_on_display,
            Efeito.sleep_ms 3000,
            Efeito.oled_clear,
            Efeito.render_on_display,
            Efeito.printf "[NÚCLEO 0] Status: INICIALIZANDO\n" ] }) ∧
    (msg.status = 1 →
      tratar_mensagem PWM_STEP r s msg =
        { s with efeitos := s.efeitos ++
          [ Efeito.set_rgb_pwm 0 PWM_STEP 0,
            Efeito.ssd1306_draw_utf8_multiline 0 0 "Status do Wi-Fi : CONECTADO",
            Efeito.render_on_display,
            Efeito.sleep_ms 3000,
            Efeito.oled_clear,
            Efeito.render_on_display,
            Efeito.printf "[NÚCLEO 0] Status: CONECTADO\n" ] }) ∧
    (msg.status = 2 →
      tratar_mensagem PWM_STEP r s msg =
        { s with efeitos := s.efeitos ++
          [ Efeito.set_rgb_pwm 0 0 PWM_STEP,
            Efeito.ssd1306_draw_utf8_multiline 0 0 "Status do Wi-Fi : FALHA",
            Efeito.render_on_display,
            Efeito.sleep_ms 3000,
            Efeito.oled_clear,
            Efeito.render_on_display,
            Efeito.printf "[NÚCLEO 0] Status: FALHA\n" ] }) ∧
    (escolher_status PWM_STEP msg.status).1 ≠ "DESCONHECIDO" ∧
    (tratar_mensagem PWM_STEP r s msg).efeitos.countP e_set_rgb_pwm =
      s.efeitos.countP e_set_rgb_pwm + 1 := by
  have h := tratar_mensagem_status PWM_STEP r s msg ht
  refine ⟨by omega, ?_, ?_, ?_, ?_, ?_⟩
  · intro h0
    rw [h, h0]
    simp only [escolher_status, snprintf_inicializando, emitir]
    rfl
  · intro h1
    rw [h, h1]
    simp only [escolher_status, snprintf_conectado, emitir]
    rfl
  · intro h2
    rw [h, h2]
    simp only [escolher_status, snprintf_falha, emitir]
    rfl
  · rcases escolher_status_casos PWM_STEP msg.status with h0 | h0 | h0 | h0
    · rw [h0.1]; show _ ≠ _; simp only; decide
    · rw [h0.1]; show _ ≠ _; simp only; decide
    · rw [h0.1]; show _ ≠ _; simp only; decide
    · omega
  · rw [h]
    simp [emitir, List.countP_append, List.countP_cons, e_set_rgb_pwm]

/-- Witness for C4: the message `{tentativa = 2, status = 1}` with `PWM_STEP = 1000`. -/
theorem tratar_mensagem_status_conhecido_witness :
    (tratar_mensagem 1000 0
        { fila_wifi := ⟨4, []⟩, proximo_envio := 0, mensagem_str := "",
          ip_recebido := false, aleatorio_inicializado := false, ultimo_ip_bin := 0,
          mqtt_iniciado := false, fifo := [], efeitos := [] }
        ⟨2, 1⟩).efeitos =
      [ Efeito.set_rgb_pwm 0 1000 0,
        Efeito.ssd1306_draw_utf8_multiline 0 0 "Status do Wi-Fi : CONECTADO",
        Efeito.render_on_display,
        Efeito.sleep_ms 3000,
        Efeito.oled_clear,
        Efeito.render_on_display,
        Efeito.printf "[NÚCLEO 0] Status: CONECTADO\n" ] := by
  have h := (tratar_mensagem_status_conhecido 1000 0
        { fila_wifi := ⟨4, []⟩, proximo_envio := 0, mensagem_str := "",
          ip_recebido := false, aleatorio_inicializado := false, ultimo_ip_bin := 0,
          mqtt_iniciado := false, fifo := [], efeitos := [] }
        ⟨2, 1⟩ (by decide) (by decide)).2.2.1 rfl
  rw [h]
  rfl

theorem indice_sorteado_eq (r : Nat) : indice_sorteado r = r % 6 := by
  have hl : cores_fortes.length = 6 := rfl
  unfold indice_sorteado numero_aleatorio
  rw [hl]
  have h6 : r % 6 < 6 := Nat.mod_lt r (by decide)
  simp only [Nat.zero_add, Nat.sub_zero]
  norm_num
  omega

theorem cores_fortes_indice (i : Nat) (h : i < 6) :
    ∃ cor, cores_fortes[i]? = some cor ∧ cores_fortes.getD i ⟨0, 0, 0⟩ = cor ∧
      cor ∈ cores_fortes := by
  interval_cases i <;> exact ⟨_, rfl, rfl, by decide⟩

/-- Claim C5: for a message with `tentativa == 0x9999` and any value `r` returned by `rand()`,
the index computed by `numero_aleatorio(0, num_cores - 1)` is `r % 6`, lies below the six
entries of `cores_fortes`, and the colour passed to `set_rgb_pwm` is the table entry at that
index; `status` is not read: any two messages with `tentativa == 0x9999` give the same
resulting state and trace. -/
theorem tratar_mensagem_ping (PWM_STEP r : Nat) (s : Estado) (msg : MensagemWiFi)
    (ht : msg.tentativa = 0x9999) :
    cores_fortes.length = 6 ∧
    indice_sorteado r = r % 6 ∧
    indice_sorteado r < cores_fortes.length ∧
    (∃ cor, cores_fortes[indice_sorteado r]? = some cor ∧ cor ∈ cores_fortes ∧
      (tratar_mensagem PWM_STEP r s msg).efeitos =
        s.efeitos ++
        (if s.aleatorio_inicializado = false then [Efeito.inicializar_aleatorio] else []) ++
        [ Efeito.set_rgb_pwm cor.r cor.g cor.b,
          Efeito.printf ("[MQTT] PING recebido. Cor forte sorteada: (R=" ++ toString cor.r ++
            ", G=" ++ toString cor.g ++ ", B=" ++ toString cor.b ++ ")\n"),
          Efeito.ssd1306_draw_utf8_multiline 0 32 "ACK do PING OK",
          Efeito.render_on_display,
          Efeito.sleep_ms 1000 ]) ∧
    (∀ outra : MensagemWiFi, outra.tentativa = 0x9999 →
      tratar_mensagem PWM_STEP r s outra = tratar_mensagem PWM_STEP r s msg) := by
  have hl : cores_fortes.length = 6 := rfl
  have hi : indice_sorteado r < 6 := by
    rw [indice_sorteado_eq]; exact Nat.mod_lt r (by decide)
  refine ⟨hl, indice_sorteado_eq r, by rw [hl]; exact hi, ?_, ?_⟩
  · obtain ⟨cor, h1, h2, h3⟩ := cores_fortes_indice (indice_sorteado r) hi
    refine ⟨cor, h1, h3, ?_⟩
    unfold tratar_mensagem
    simp only [if_pos ht, h2]
    by_cases ha : s.aleatorio_inicializado = false
    · simp [ha, emitir]
    · simp [ha, emitir]
  · intro outra ho
    unfold tratar_mensagem
    simp only [if_pos ht, if_pos ho]

/-- Witness for C5: `rand()` returning 10 selects entry 4 (magenta), whatever `status` is. -/
theorem tratar_mensagem_ping_witness :
    indice_sorteado 10 = 10 % 6 ∧
    tratar_mensagem 1000 10
        { fila_wifi := ⟨4, []⟩, proximo_envio := 0, mensagem_str := "",
          ip_recebido := false, aleatorio_inicializado := true, ultimo_ip_bin := 0,
          mqtt_iniciado := false, fifo := [], efeitos := [] } ⟨0x9999, 3⟩ =
      tratar_mensagem 1000 10
        { fila_wifi := ⟨4, []⟩, proximo_envio := 0, mensagem_str := "",
          ip_recebido := false, aleatorio_inicializado := true, ultimo_ip_bin := 0,
          mqtt_iniciado := false, fifo := [], efeitos := [] } ⟨0x9999, 7⟩ :=
  have h := tratar_mensagem_ping 1000 10
        { fila_wifi := ⟨4, []⟩, proximo_envio := 0, mensagem_str := "",
          ip_recebido := false, aleatorio_inicializado := true, ultimo_ip_bin := 0,
          mqtt_iniciado := false, fifo := [], efeitos := [] } ⟨0x9999, 7⟩ rfl
  ⟨h.2.1, h.2.2.2.2 ⟨0x9999, 3⟩ rfl⟩

/-- Claim C10: for every status value, the line `"Status do Wi-Fi : "` followed by the
description chosen by the switch of `tratar_mensagem` has an 18-byte prefix and a description
of at most 13 bytes (13 for "INICIALIZANDO"), hence at most 31 bytes and 31 characters, so
`snprintf` into the 32-byte `linha_status` stores it whole, and that whole line is what
`tratar_mensagem` draws for any message with this status and `tentativa != 0x9999`. -/
theorem linha_status_cabe (PWM_STEP status : Nat) :
    "Status do Wi-Fi : ".utf8ByteSize = 18 ∧
    (escolher_status PWM_STEP status).1.utf8ByteSize ≤ 13 ∧
    (escolher_status PWM_STEP 0).1 = "INICIALIZANDO" ∧
    "INICIALIZANDO".utf8ByteSize = 13 ∧
    ("Status do Wi-Fi : " ++ (escolher_status PWM_STEP status).1).utf8ByteSize ≤ 31 ∧
    ("Status do Wi-Fi : " ++ (escolher_status PWM_STEP status).1).length ≤ 31 ∧
    snprintf 32 ("Status do Wi-Fi : " ++ (escolher_status PWM_STEP status).1) =
      "Status do Wi-Fi : " ++ (escolher_status PWM_STEP status).1 ∧
    (∀ (r : Nat) (s : Estado) (msg : MensagemWiFi),
      msg.status = status → msg.tentativa ≠ 0x9999 →
      Efeito.ssd1306_draw_utf8_multiline 0 0
          ("Status do Wi-Fi : " ++ (escolher_status PWM_STEP status).1) ∈
        (tratar_mensagem PWM_STEP r s msg).efeitos) := by
  have hsn : snprintf 32 ("Status do Wi-Fi : " ++ (escolher_status PWM_STEP status).1) =
      "Status do Wi-Fi : " ++ (escolher_status PWM_STEP status).1 := by
    rcases escolher_status_casos PWM_STEP status with h | h | h | h <;> rw [h.1]
    · exact snprintf_inicializando
    · exact snprintf_conectado
    · exact snprintf_falha
    · exact snprintf_desconhecido
  refine ⟨by decide, ?_, rfl, by decide, ?_, ?_, hsn, ?_⟩
  · rcases escolher_status_casos PWM_STEP status with h | h | h | h <;> rw [h.1] <;>
      simp only <;> decide
  · rcases escolher_status_casos PWM_STEP status with h | h | h | h <;> rw [h.1] <;>
      simp only <;> decide
  · rcases escolher_status_casos PWM_STEP status with h | h | h | h <;> rw [h.1] <;>
      simp only <;> decide
  · intro r s msg hst ht
    rw [tratar_mensagem_status PWM_STEP r s msg ht, hst, hsn]
    simp [emitir]

/-! ## Messaging lifecycle: `inicializar_mqtt_se_preciso` and `enviar_ping_periodico` -/

theorem inicializar_mqtt_ja_iniciado (t : Estado) (agora : Nat) (h : t.mqtt_iniciado = true) :
    inicializar_mqtt_se_preciso t agora = t := by
  simp [inicializar_mqtt_se_preciso, h]

theorem inicializar_mqtt_sem_ip (t : Estado) (agora : Nat) (h : t.ultimo_ip_bin = 0) :
    inicializar_mqtt_se_preciso t agora = t := by
  simp [inicializar_mqtt_se_preciso, h]

theorem inicializar_mqtt_parte (t : Estado) (agora : Nat)
    (h : t.mqtt_iniciado = false) (hip : t.ultimo_ip_bin ≠ 0) :
    inicializar_mqtt_se_preciso t agora =
      { t with
        mqtt_iniciado := true
        proximo_envio := agora + INTERVALO_PING_MS * 1000
        efeitos := t.efeitos ++
          [ Efeito.printf "[MQTT] Iniciando cliente MQTT...\n",
            Efeito.iniciar_mqtt_cliente ] } := by
  simp [inicializar_mqtt_se_preciso, h, hip, emitir, make_timeout_time_ms]

theorem chamadas_inicializar_mqtt_append (s : Estado) (a b : List (Nat × Nat)) :
    chamadas_inicializar_mqtt s (a ++ b) =
      chamadas_inicializar_mqtt (chamadas_inicializar_mqtt s a) b := by
  induction a generalizing s with
  | nil => rfl
  | cons p r ih =>
    obtain ⟨ip, agora⟩ := p
    simp only [List.cons_append, chamadas_inicializar_mqtt]
    exact ih _

theorem chamadas_apos_partida (t : Estado) (cs : List (Nat × Nat))
    (h : t.mqtt_iniciado = true) :
    (chamadas_inicializar_mqtt t cs).efeitos = t.efeitos ∧
    (chamadas_inicializar_mqtt t cs).mqtt_iniciado = true ∧
    (chamadas_inicializar_mqtt t cs).proximo_envio = t.proximo_envio := by
  induction cs generalizing t with
  | nil => exact ⟨rfl, h, rfl⟩
  | cons p r ih =>
    obtain ⟨ip, agora⟩ := p
    simp only [chamadas_inicializar_mqtt]
    rw [inicializar_mqtt_ja_iniciado _ agora (by exact h)]
    exact ih { t with ultimo_ip_bin := ip } h

theorem chamadas_sem_ip (s : Estado) (cs : List (Nat × Nat))
    (h : s.mqtt_iniciado = false) (hz : ∀ p ∈ cs, p.1 = 0) :
    (chamadas_inicializar_mqtt s cs).efeitos = s.efeitos ∧
    (chamadas_inicializar_mqtt s cs).mqtt_iniciado = false ∧
    (chamadas_inicializar_mqtt s cs).proximo_envio = s.proximo_envio := by
  induction cs generalizing s with
  | nil => exact ⟨rfl, h, rfl⟩
  | cons p r ih =>
    obtain ⟨ip, agora⟩ := p
    have hip : ip = 0 := hz (ip, agora) (List.mem_cons_self _ _)
    simp only [chamadas_inicializar_mqtt]
    rw [inicializar_mqtt_sem_ip _ agora (by exact hip)]
    exact ih { s with ultimo_ip_bin := ip } h (fun q hq => hz q (List.mem_cons_of_mem _ hq))

theorem partidas_no_maximo_uma (s : Estado) (cs : List (Nat × Nat)) :
    partidas_mqtt (chamadas_inicializar_mqtt s cs) ≤ partidas_mqtt s + 1 := by
  induction cs generalizing s with
  | nil => exact Nat.le_succ _
  | cons p r ih =>
    obtain ⟨ip, agora⟩ := p
    simp only [chamadas_inicializar_mqtt]
    by_cases hm : s.mqtt_iniciado = true
    · rw [inicializar_mqtt_ja_iniciado _ agora (by exact hm)]
      exact ih { s with ultimo_ip_bin := ip }
    · have hm2 : s.mqtt_iniciado = false := by simpa using hm
      by_cases hip : ip = 0
      · rw [inicializar_mqtt_sem_ip _ agora (by exact hip)]
        exact ih { s with ultimo_ip_bin := ip }
      · rw [inicializar_mqtt_parte _ agora (by exact hm2) (by exact hip)]
        have h1 := (chamadas_apos_partida
          { s with
            ultimo_ip_bin := ip
            mqtt_iniciado := true
            proximo_envio := agora + INTERVALO_PING_MS * 1000
            efeitos := s.efeitos ++
              [ Efeito.printf "[MQTT] Iniciando cliente MQTT...\n",
                Efeito.iniciar_mqtt_cliente ] } r rfl).1
        unfold partidas_mqtt
        rw [h1]
        simp [List.count_append, List.count_cons]

/-- Claim C6: starting with `mqtt_iniciado == false`, over a sequence of calls of
`inicializar_mqtt_se_preciso` in which the first call that sees `ultimo_ip_bin != 0` comes
after the calls `antes` and before the calls `depois`: the calls before it change neither the
trace nor the lifecycle state; that call logs, calls `iniciar_mqtt_cliente` once, sets
`mqtt_iniciado` and arms `proximo_envio` to the clock reading plus `INTERVALO_PING_MS`
(in microseconds); the calls after it add nothing to the trace and keep the lifecycle state;
the whole sequence contains exactly one start. In general a call on a started state returns
the state unchanged (so a second call with an address set is a no-op), and no sequence of
calls starts the client more than once. -/
theorem inicializar_mqtt_uma_vez (s : Estado) (h0 : s.mqtt_iniciado = false)
    (antes depois : List (Nat × Nat)) (ip agora : Nat)
    (hantes : ∀ p ∈ antes, p.1 = 0) (hip : ip ≠ 0) :
    ((chamadas_inicializar_mqtt s antes).efeitos = s.efeitos ∧
      (chamadas_inicializar_mqtt s antes).mqtt_iniciado = false ∧
      (chamadas_inicializar_mqtt s antes).proximo_envio = s.proximo_envio) ∧
    ((chamadas_inicializar_mqtt s (antes ++ [(ip, agora)])).efeitos =
        s.efeitos ++
          [ Efeito.printf "[MQTT] Iniciando cliente MQTT...\n",
            Efeito.iniciar_mqtt_cliente ] ∧
      (chamadas_inicializar_mqtt s (antes ++ [(ip, agora)])).mqtt_iniciado = true ∧
      (chamadas_inicializar_mqtt s (antes ++ [(ip, agora)])).proximo_envio =
        agora + INTERVALO_PING_MS * 1000) ∧
    ((chamadas_inicializar_mqtt s (antes ++ (ip, agora) :: depois)).efeitos =
        s.efeitos ++
          [ Efeito.printf "[MQTT] Iniciando cliente MQTT...\n",
            Efeito.iniciar_mqtt_cliente ] ∧
      (chamadas_inicializar_mqtt s (antes ++ (ip, agora) :: depois)).mqtt_iniciado = true ∧
      (chamadas_inicializar_mqtt s (antes ++ (ip, agora) :: depois)).proximo_envio =
        agora + INTERVALO_PING_MS * 1000) ∧
    partidas_mqtt (chamadas_inicializar_mqtt s (antes ++ (ip, agora) :: depois)) =
      partidas_mqtt s + 1 ∧
    (∀ (t : Estado) (t1 t2 : Nat), t.ultimo_ip_bin ≠ 0 →
      inicializar_mqtt_se_preciso (inicializar_mqtt_se_preciso t t1) t2 =
        inicializar_mqtt_se_preciso t t1) ∧
    (∀ (t : Estado) (t1 : Nat), t.mqtt_iniciado = true →
      inicializar_mqtt_se_preciso t t1 = t) ∧
    (∀ (t : Estado) (cs : List (Nat × Nat)),
      partidas_mqtt (chamadas_inicializar_mqtt t cs) ≤ partidas_mqtt t + 1) := by
  obtain ⟨ha1, ha2, ha3⟩ := chamadas_sem_ip s antes h0 hantes
  have hp := inicializar_mqtt_parte
    { chamadas_inicializar_mqtt s antes with ultimo_ip_bin := ip } agora ha2 hip
  have hp1 : (inicializar_mqtt_se_preciso
      { chamadas_inicializar_mqtt s antes with ultimo_ip_bin := ip } agora).efeitos =
      s.efeitos ++
        [ Efeito.printf "[MQTT] Iniciando cliente MQTT...\n",
          Efeito.iniciar_mqtt_cliente ] :=
    (congrArg Estado.efeitos hp).trans (by rw [← ha1])
  have hp2 : (inicializar_mqtt_se_preciso
      { chamadas_inicializar_mqtt s antes with ultimo_ip_bin := ip } agora).mqtt_iniciado =
      true := congrArg Estado.mqtt_iniciado hp
  have hp3 : (inicializar_mqtt_se_preciso
      { chamadas_inicializar_mqtt s antes with ultimo_ip_bin := ip } agora).proximo_envio =
      agora + INTERVALO_PING_MS * 1000 := congrArg Estado.proximo_envio hp
  have hseq : ∀ cs, chamadas_inicializar_mqtt s (antes ++ (ip, agora) :: cs) =
      chamadas_inicializar_mqtt
        (inicializar_mqtt_se_preciso
          { chamadas_inicializar_mqtt s antes with ultimo_ip_bin := ip } agora) cs := by
    intro cs
    rw [chamadas_inicializar_mqtt_append]; rfl
  have hd := fun cs => chamadas_apos_partida
    (inicializar_mqtt_se_preciso
      { chamadas_inicializar_mqtt s antes with ultimo_ip_bin := ip } agora) cs hp2
  have hfim : ∀ cs,
      (chamadas_inicializar_mqtt s (antes ++ (ip, agora) :: cs)).efeitos =
        s.efeitos ++
          [ Efeito.printf "[MQTT] Iniciando cliente MQTT...\n",
            Efeito.iniciar_mqtt_cliente ] ∧
      (chamadas_inicializar_mqtt s (antes ++ (ip, agora) :: cs)).mqtt_iniciado = true ∧
      (chamadas_inicializar_mqtt s (antes ++ (ip, agora) :: cs)).proximo_envio =
        agora + INTERVALO_PING_MS * 1000 := by
    intro cs
    rw [hseq cs]
    exact ⟨(hd cs).1.trans hp1, (hd cs).2.1, (hd cs).2.2.trans hp3⟩
  refine ⟨⟨ha1, ha2, ha3⟩, hfim [], hfim depois, ?_, ?_, ?_, ?_⟩
  · unfold partidas_mqtt
    rw [(hfim depois).1]
    simp [List.count_append, List.count_cons]
  · intro t t1 t2 ht
    by_cases hm : t.mqtt_iniciado = true
    · rw [inicializar_mqtt_ja_iniciado t t1 hm, inicializar_mqtt_ja_iniciado t t2 hm]
    · have hm2 : t.mqtt_iniciado = false := by simpa using hm
      apply inicializar_mqtt_ja_iniciado
      rw [inicializar_mqtt_parte t t1 hm2 ht]
  · intro t t1 ht
    exact inicializar_mqtt_ja_iniciado t t1 ht
  · intro t cs
    exact partidas_no_maximo_uma t cs

/-- Witness for C6: two calls without an address, then two calls with the address
`0xC0A80164` at clock readings 7000 and 9000: one start, deadline `7000 + 5000 * 1000`. -/
theorem inicializar_mqtt_uma_vez_witness :
    partidas_mqtt (chamadas_inicializar_mqtt
        { fila_wifi := ⟨4, []⟩, proximo_envio := 0, mensagem_str := "",
          ip_recebido := false, aleatorio_inicializado := false, ultimo_ip_bin := 0,
          mqtt_iniciado := false, fifo := [], efeitos := [] }
        ([(0, 10), (0, 20)] ++ (0xC0A80164, 7000) :: [(0xC0A80164, 9000)])) =
      partidas_mqtt
        { fila_wifi := ⟨4, []⟩, proximo_envio := 0, mensagem_str := "",
          ip_recebido := false, aleatorio_inicializado := false, ultimo_ip_bin := 0,
          mqtt_iniciado := false, fifo := [], efeitos := [] } + 1 :=
  (inicializar_mqtt_uma_vez
        { fila_wifi := ⟨4, []⟩, proximo_envio := 0, mensagem_str := "",
          ip_recebido := false, aleatorio_inicializado := false, ultimo_ip_bin := 0,
          mqtt_iniciado := false, fifo := [], efeitos := [] } rfl
        [(0, 10), (0, 20)] [(0xC0A80164, 9000)] 0xC0A80164 7000
        (by decide) (by decide)).2.2.2.1

theorem enviar_ping_nada (s : Estado) (agora agora_rearme : Nat)
    (h : ¬ (s.mqtt_iniciado = true ∧ s.proximo_envio ≤ agora)) :
    enviar_ping_periodico s agora agora_rearme = s := by
  unfold enviar_ping_periodico absolute_time_diff_us
  rw [if_neg]
  intro hc
  exact h ⟨hc.1, by omega⟩

theorem enviar_ping_publica (s : Estado) (agora agora_rearme : Nat)
    (h : s.mqtt_iniciado = true ∧ s.proximo_envio ≤ agora) :
    enviar_ping_periodico s agora agora_rearme =
      { s with
        proximo_envio := agora_rearme + INTERVALO_PING_MS * 1000
        efeitos := s.efeitos ++
          [ Efeito.publicar_mensagem_mqtt "PING",
            Efeito.printf "[MQTT] PING publicado\n",
            Efeito.ssd1306_draw_utf8_multiline 0 0 "PING enviado...",
            Efeito.render_on_display ] } := by
  unfold enviar_ping_periodico absolute_time_diff_us
  rw [if_pos ⟨h.1, by omega⟩]
  rfl

/-- Claim C7: `enviar_ping_periodico` publishes "PING" exactly when `mqtt_iniciado` is true
and the clock reading is at or past `proximo_envio`. When it publishes, the trace gains the
publish, log and display calls and `proximo_envio` becomes the clock reading of the rearm
plus `INTERVALO_PING_MS` = 5000 ms (in microseconds), nothing else changes, and every later
call whose clock reading is strictly before that deadline returns the state unchanged.
Otherwise, in particular while not started, the call returns the state unchanged. -/
theorem enviar_ping_periodico_agenda (s : Estado) (agora agora_rearme : Nat) :
    INTERVALO_PING_MS = 5000 ∧
    (s.mqtt_iniciado = true ∧ s.proximo_envio ≤ agora →
      enviar_ping_periodico s agora agora_rearme =
        { s with
          proximo_envio := agora_rearme + INTERVALO_PING_MS * 1000
          efeitos := s.efeitos ++
            [ Efeito.publicar_mensagem_mqtt "PING",
              Efeito.printf "[MQTT] PING publicado\n",
              Efeito.ssd1306_draw_utf8_multiline 0 0 "PING enviado...",
              Efeito.render_on_display ] } ∧
      ∀ depois depois_rearme : Nat, depois < agora_rearme + INTERVALO_PING_MS * 1000 →
        enviar_ping_periodico (enviar_ping_periodico s agora agora_rearme)
            depois depois_rearme =
          enviar_ping_periodico s agora agora_rearme) ∧
    (¬ (s.mqtt_iniciado = true ∧ s.proximo_envio ≤ agora) →
      enviar_ping_periodico s agora agora_rearme = s) ∧
    (s.mqtt_iniciado = false → enviar_ping_periodico s agora agora_rearme = s) ∧
    (agora < s.proximo_envio → enviar_ping_periodico s agora agora_rearme = s) ∧
    (pings_publicados (enviar_ping_periodico s agora agora_rearme) = pings_publicados s + 1 ↔
      s.mqtt_iniciado = true ∧ s.proximo_envio ≤ agora) ∧
    (pings_publicados (enviar_ping_periodico s agora agora_rearme) = pings_publicados s ↔
      ¬ (s.mqtt_iniciado = true ∧ s.proximo_envio ≤ agora)) := by
  have hcount : ∀ h : s.mqtt_iniciado = true ∧ s.proximo_envio ≤ agora,
      pings_publicados (enviar_ping_periodico s agora agora_rearme) =
        pings_publicados s + 1 := by
    intro h
    rw [enviar_ping_publica s agora agora_rearme h]
    simp [pings_publicados, List.count_append, List.count_cons]
  refine ⟨rfl, ?_, enviar_ping_nada s agora agora_rearme, ?_, ?_, ?_, ?_⟩
  · intro h
    refine ⟨enviar_ping_publica s agora agora_rearme h, ?_⟩
    intro depois depois_rearme hd
    apply enviar_ping_nada
    rw [enviar_ping_publica s agora agora_rearme h]
    intro hc
    have := hc.2
    simp only at this
    omega
  · intro h
    apply enviar_ping_nada
    rw [h]; simp
  · intro h
    apply enviar_ping_nada
    intro hc; omega
  · constructor
    · intro h
      by_contra hn
      rw [enviar_ping_nada s agora agora_rearme hn] at h
      omega
    · exact hcount
  · constructor
    · intro h hc
      rw [hcount hc] at h
      omega
    · intro hn
      rw [enviar_ping_nada s agora agora_rearme hn]

/-- Witness for C7: started, deadline 5000000, clock at 5000010 for the test and 5000020 for
the rearm: the next deadline is `5000020 + 5000 * 1000`. -/
theorem enviar_ping_periodico_agenda_witness :
    (enviar_ping_periodico
        { fila_wifi := ⟨4, []⟩, proximo_envio := 5000000, mensagem_str := "",
          ip_recebido := true, aleatorio_inicializado := false, ultimo_ip_bin := 0xC0A80164,
          mqtt_iniciado := true, fifo := [], efeitos := [] } 5000010 5000020).proximo_envio =
      5000020 + INTERVALO_PING_MS * 1000 := by
  have h := ((enviar_ping_periodico_agenda
        { fila_wifi := ⟨4, []⟩, proximo_envio := 5000000, mensagem_str := "",
          ip_recebido := true, aleatorio_inicializado := false, ultimo_ip_bin := 0xC0A80164,
          mqtt_iniciado := true, fifo := [], efeitos := [] } 5000010 5000020).2.1
        ⟨rfl, by decide⟩).1
  rw [h]

/-! ## The loop of `main` -/

theorem descartes_emitir (s : Estado) (es : List Efeito) :
    descartes_fila_cheia (emitir s es) =
      descartes_fila_cheia s +
        es.count (Efeito.ssd1306_draw_utf8_multiline 0 0 "Fila cheia. Descartado.") := by
  simp [descartes_fila_cheia, emitir, List.count_append]

theorem tratar_mensagem_preserva (PWM_STEP r : Nat) (s : Estado) (msg : MensagemWiFi) :
    (tratar_mensagem PWM_STEP r s msg).fila_wifi = s.fila_wifi ∧
    descartes_fila_cheia (tratar_mensagem PWM_STEP r s msg) = descartes_fila_cheia s := by
  by_cases ht : msg.tentativa = 0x9999
  · unfold tratar_mensagem
    simp only [if_pos ht]
    by_cases ha : s.aleatorio_inicializado = false
    · simp [ha, emitir, descartes_fila_cheia, List.count_append, List.count_cons]
    · simp [ha, emitir, descartes_fila_cheia, List.count_append, List.count_cons]
  · rw [tratar_mensagem_status PWM_STEP r s msg ht]
    refine ⟨rfl, ?_⟩
    rw [descartes_emitir]
    rcases escolher_status_casos PWM_STEP msg.status with h | h | h | h <;> rw [h.1]
    · simp only [snprintf_inicializando]; simp [List.count_cons]
    · simp only [snprintf_conectado]; simp [List.count_cons]
    · simp only [snprintf_falha]; simp [List.count_cons]
    · simp only [snprintf_desconhecido]; simp [List.count_cons]

theorem inicializar_mqtt_preserva (s : Estado) (agora : Nat) :
    (inicializar_mqtt_se_preciso s agora).fila_wifi = s.fila_wifi ∧
    descartes_fila_cheia (inicializar_mqtt_se_preciso s agora) = descartes_fila_cheia s := by
  unfold inicializar_mqtt_se_preciso
  split
  · simp [emitir, descartes_fila_cheia, List.count_append, List.count_cons]
  · exact ⟨rfl, rfl⟩

theorem enviar_ping_preserva (s : Estado) (agora agora_rearme : Nat) :
    (enviar_ping_periodico s agora agora_rearme).fila_wifi = s.fila_wifi ∧
    descartes_fila_cheia (enviar_ping_periodico s agora agora_rearme) =
      descartes_fila_cheia s := by
  unfold enviar_ping_periodico
  split
  · simp [emitir, descartes_fila_cheia, List.count_append, List.count_cons]
  · exact ⟨rfl, rfl⟩

theorem partida_preserva (esperas : Nat) (s : Estado) :
    (inicia_core1 (inicia_hardware esperas s)).fila_wifi.itens = [] ∧
    (inicia_core1 (inicia_hardware esperas s)).fila_wifi.capacidade =
      s.fila_wifi.capacidade ∧
    descartes_fila_cheia (inicia_core1 (inicia_hardware esperas s)) =
      descartes_fila_cheia s := by
  refine ⟨rfl, rfl, ?_⟩
  simp [inicia_core1, inicia_hardware, espera_usb, fila_inicializar, emitir,
    descartes_fila_cheia, List.count_append, List.count_cons, List.count_replicate]

/-- With room in the queue, a returning call of `verificar_fifo` never takes the
"Fila cheia" branch. -/
theorem verificar_fifo_com_espaco (t t1 : Estado)
    (hq : t.fila_wifi.ocupacao ≠ t.fila_wifi.capacidade)
    (h : verificar_fifo t = some t1) :
    t1.fila_wifi.capacidade = t.fila_wifi.capacidade ∧
    descartes_fila_cheia t1 = descartes_fila_cheia t ∧
    (t1.fila_wifi.itens = t.fila_wifi.itens ∨
      ∃ m, t1.fila_wifi.itens = t.fila_wifi.itens ++ [m] ∧ mensagem_valida m) := by
  refine ⟨?_, ?_, fila_apos_verificar_fifo t t1 h⟩
  all_goals
    cases hf : t.fifo with
    | nil =>
      rw [verificar_fifo_vazio t hf] at h
      cases h; rfl
    | cons w resto =>
      by_cases ht : (w % 4294967296) >>> 16 % 65536 = 0xFFFE
      · cases resto with
        | nil => rw [verificar_fifo_bloqueado t w hf ht] at h; cases h
        | cons ip r2 =>
          rw [verificar_fifo_ip t w ip r2 hf ht] at h
          cases h
          first
            | rfl
            | simp [tratar_ip_binario, emitir, descartes_fila_cheia, List.count_append,
                List.count_cons]
      · by_cases hv : ((w % 4294967296) &&& 0xFFFF) % 65536 > 2 ∧
            (w % 4294967296) >>> 16 % 65536 ≠ 0x9999
        · rw [verificar_fifo_invalido t w resto hf ht hv] at h
          cases h
          first
            | rfl
            | simp [diagnostico_status_invalido, emitir, descartes_fila_cheia,
                List.count_append, List.count_cons]
        · rw [verificar_fifo_aceito t w resto hf ht hv] at h
          simp only [fila_inserir, hq, if_false] at h
          cases h
          rfl

theorem tratar_fila_vazia (PWM_STEP r : Nat) (s : Estado) (h : s.fila_wifi.itens = []) :
    tratar_fila PWM_STEP r s = s := by
  unfold tratar_fila fila_remover
  rw [h]

theorem tratar_fila_unitaria (PWM_STEP r : Nat) (s : Estado) (m : MensagemWiFi)
    (h : s.fila_wifi.itens = [m]) :
    tratar_fila PWM_STEP r s =
      tratar_mensagem PWM_STEP r
        { s with fila_wifi := { s.fila_wifi with itens := [] } } m := by
  unfold tratar_fila fila_remover
  rw [h]

/-- The only way `verificar_fifo` fails to return: the FIFO holds a lone word tagged 0xFFFE,
so the blocking pop of the address word waits. -/
theorem verificar_fifo_retorna (t : Estado) :
    (verificar_fifo t).isSome = true ∨
    ∃ w, t.fifo = [w] ∧ (w % 4294967296) >>> 16 % 65536 = 0xFFFE := by
  cases hf : t.fifo with
  | nil => left; rw [verificar_fifo_vazio t hf]; rfl
  | cons w resto =>
    by_cases ht : (w % 4294967296) >>> 16 % 65536 = 0xFFFE
    · cases resto with
      | nil => exact Or.inr ⟨w, rfl, ht⟩
      | cons ip r2 => left; rw [verificar_fifo_ip t w ip r2 hf ht]; rfl
    · left
      by_cases hv : ((w % 4294967296) &&& 0xFFFF) % 65536 > 2 ∧
          (w % 4294967296) >>> 16 % 65536 ≠ 0x9999
      · rw [verificar_fifo_invalido t w resto hf ht hv]; rfl
      · rw [verificar_fifo_aceito t w resto hf ht hv]
        unfold fila_inserir
        split <;> rfl

theorem iteracao_retorna (PWM_STEP : Nat) (t : Estado) (e : Entrada) :
    (iteracao PWM_STEP t e).isSome = true ∨
    ∃ w, t.fifo ++ e.chegadas = [w] ∧ (w % 4294967296) >>> 16 % 65536 = 0xFFFE := by
  rcases verificar_fifo_retorna { t with fifo := t.fifo ++ e.chegadas } with h | h
  · left
    unfold iteracao
    cases hv : verificar_fifo { t with fifo := t.fifo ++ e.chegadas } with
    | none => rw [hv] at h; cases h
    | some s1 => rfl
  · exact Or.inr h

/-- One iteration started with an empty queue of capacity at least 1: what `verificar_fifo`
leaves in the queue is empty or a single valid message, `tratar_fila` reduces that message at
once, and the iteration ends with the queue empty and no "Fila cheia" discard. -/
theorem iteracao_fila_vazia (PWM_STEP : Nat) (t t1 : Estado) (e : Entrada)
    (hv : t.fila_wifi.itens = []) (hcap : 1 ≤ t.fila_wifi.capacidade)
    (h : iteracao PWM_STEP t e = some t1) :
    (t1.fila_wifi.itens = [] ∧
      t1.fila_wifi.capacidade = t.fila_wifi.capacidade ∧
      descartes_fila_cheia t1 = descartes_fila_cheia t) ∧
    ∃ s1, verificar_fifo { t with fifo := t.fifo ++ e.chegadas } = some s1 ∧
      descartes_fila_cheia s1 = descartes_fila_cheia t ∧
      (s1.fila_wifi.itens = [] ∧ tratar_fila PWM_STEP e.rand s1 = s1 ∨
        ∃ m, s1.fila_wifi.itens = [m] ∧ mensagem_valida m ∧
          tratar_fila PWM_STEP e.rand s1 =
            tratar_mensagem PWM_STEP e.rand
              { s1 with fila_wifi := { s1.fila_wifi with itens := [] } } m) ∧
      (tratar_fila PWM_STEP e.rand s1).fila_wifi.itens = [] ∧
      t1 = emitir
        (enviar_ping_periodico
          (inicializar_mqtt_se_preciso (tratar_fila PWM_STEP e.rand s1) e.t_mqtt)
          e.t_ping e.t_rearme)
        [Efeito.sleep_ms 50] := by
  unfold iteracao at h
  cases hvf : verificar_fifo { t with fifo := t.fifo ++ e.chegadas } with
  | none => rw [hvf] at h; cases h
  | some s1 =>
    rw [hvf] at h
    simp only [Option.some.injEq] at h
    have hq : ({ t with fifo := t.fifo ++ e.chegadas } : Estado).fila_wifi.ocupacao ≠
        ({ t with fifo := t.fifo ++ e.chegadas } : Estado).fila_wifi.capacidade := by
      show t.fila_wifi.ocupacao ≠ t.fila_wifi.capacidade
      unfold FilaCircular.ocupacao
      rw [hv]
      simp only [List.length_nil]
      omega
    obtain ⟨hc1, hd1, hi1⟩ := verificar_fifo_com_espaco _ s1 hq hvf
    have hc1b : s1.fila_wifi.capacidade = t.fila_wifi.capacidade := hc1
    have hd1b : descartes_fila_cheia s1 = descartes_fila_cheia t := hd1
    have hi1b : s1.fila_wifi.itens = [] ∨
        ∃ m, s1.fila_wifi.itens = [m] ∧ mensagem_valida m := by
      rcases hi1 with hi | ⟨m, hi, hm⟩
      · left; rw [hi]; exact hv
      · right
        refine ⟨m, ?_, hm⟩
        rw [hi]
        show t.fila_wifi.itens ++ [m] = [m]
        rw [hv]; rfl
    have htf : (tratar_fila PWM_STEP e.rand s1).fila_wifi.itens = [] ∧
        (tratar_fila PWM_STEP e.rand s1).fila_wifi.capacidade = s1.fila_wifi.capacidade ∧
        descartes_fila_cheia (tratar_fila PWM_STEP e.rand s1) = descartes_fila_cheia s1 := by
      rcases hi1b with hi | ⟨m, hi, _⟩
      · rw [tratar_fila_vazia PWM_STEP e.rand s1 hi]
        exact ⟨hi, rfl, rfl⟩
      · rw [tratar_fila_unitaria PWM_STEP e.rand s1 m hi]
        obtain ⟨hp1, hp2⟩ := tratar_mensagem_preserva PWM_STEP e.rand
          { s1 with fila_wifi := { s1.fila_wifi with itens := [] } } m
        rw [hp1]
        exact ⟨rfl, rfl, hp2⟩
    obtain ⟨hm1, hm2⟩ :=
      inicializar_mqtt_preserva (tratar_fila PWM_STEP e.rand s1) e.t_mqtt
    obtain ⟨hp1, hp2⟩ := enviar_ping_preserva
      (inicializar_mqtt_se_preciso (tratar_fila PWM_STEP e.rand s1) e.t_mqtt)
      e.t_ping e.t_rearme
    refine ⟨?_, s1, rfl, hd1b, ?_, htf.1, h.symm⟩
    · rw [← h]
      refine ⟨?_, ?_, ?_⟩
      · show (enviar_ping_periodico _ e.t_ping e.t_rearme).fila_wifi.itens = []
        rw [hp1, hm1]; exact htf.1
      · show (enviar_ping_periodico _ e.t_ping e.t_rearme).fila_wifi.capacidade = _
        rw [hp1, hm1, htf.2.1]; exact hc1b
      · rw [descartes_emitir, hp2, hm2, htf.2.2, hd1b]
        simp [List.count_cons]
    · rcases hi1b with hi | ⟨m, hi, hm⟩
      · exact Or.inl ⟨hi, tratar_fila_vazia PWM_STEP e.rand s1 hi⟩
      · exact Or.inr ⟨m, hi, hm, tratar_fila_unitaria PWM_STEP e.rand s1 m hi⟩

theorem laco_append (PWM_STEP : Nat) (s : Estado) (a b : List Entrada) :
    laco PWM_STEP s (a ++ b) =
      match laco PWM_STEP s a with
      | none => none
      | some sp => laco PWM_STEP sp b := by
  induction a generalizing s with
  | nil => rfl
  | cons e r ih =>
    simp only [List.cons_append, laco]
    cases iteracao PWM_STEP s e with
    | none => rfl
    | some s1 => exact ih s1

theorem laco_fila_vazia (PWM_STEP : Nat) (t t1 : Estado) (es : List Entrada)
    (hv : t.fila_wifi.itens = []) (hcap : 1 ≤ t.fila_wifi.capacidade)
    (h : laco PWM_STEP t es = some t1) :
    t1.fila_wifi.itens = [] ∧
    t1.fila_wifi.capacidade = t.fila_wifi.capacidade ∧
    descartes_fila_cheia t1 = descartes_fila_cheia t := by
  induction es generalizing t with
  | nil =>
    simp only [laco, Option.some.injEq] at h
    rw [← h]; exact ⟨hv, rfl, rfl⟩
  | cons e r ih =>
    simp only [laco] at h
    cases hi : iteracao PWM_STEP t e with
    | none => rw [hi] at h; cases h
    | some s1 =>
      rw [hi] at h
      obtain ⟨⟨h1, h2, h3⟩, _⟩ := iteracao_fila_vazia PWM_STEP t s1 e hv hcap hi
      obtain ⟨k1, k2, k3⟩ := ih s1 h1 (by rw [h2]; exact hcap) h
      exact ⟨k1, k2.trans h2, k3.trans h3⟩

/-- Claim C9 (with the queue modelled from the spec): for a queue of capacity at least 1,
any start-up and any run of the loop of `main` that completes the iterations described by
`es`: the queue is empty after `inicia_core1`, and at every iteration boundary (after every
prefix of `es`, hence at the start and the end of every iteration) the queue is empty and the
"Fila cheia" discard has never happened; in every iteration `verificar_fifo` leaves at most
one message in the queue, without discarding, and `tratar_fila` reduces that message in the
same iteration. An iteration always completes, except when the FIFO holds nothing but a lone
word tagged 0xFFFE (the blocking pop then waits for the address word). -/
theorem main_fila_vazia (PWM_STEP esperas : Nat) (s0 : Estado)
    (hcap : 1 ≤ s0.fila_wifi.capacidade) (es : List Entrada) (s : Estado)
    (h : main PWM_STEP esperas s0 es = some s) :
    (inicia_core1 (inicia_hardware esperas s0)).fila_wifi.itens = [] ∧
    (s.fila_wifi.itens = [] ∧ descartes_fila_cheia s = descartes_fila_cheia s0) ∧
    (∀ pre pos : List Entrada, es = pre ++ pos →
      ∃ sp, main PWM_STEP esperas s0 pre = some sp ∧
        laco PWM_STEP sp pos = some s ∧
        sp.fila_wifi.itens = [] ∧
        descartes_fila_cheia sp = descartes_fila_cheia s0) ∧
    (∀ (pre : List Entrada) (e : Entrada) (pos : List Entrada), es = pre ++ e :: pos →
      ∃ sp s1 sq, main PWM_STEP esperas s0 pre = some sp ∧
        sp.fila_wifi.itens = [] ∧
        verificar_fifo { sp with fifo := sp.fifo ++ e.chegadas } = some s1 ∧
        descartes_fila_cheia s1 = descartes_fila_cheia s0 ∧
        (s1.fila_wifi.itens = [] ∧ tratar_fila PWM_STEP e.rand s1 = s1 ∨
          ∃ m, s1.fila_wifi.itens = [m] ∧ mensagem_valida m ∧
            tratar_fila PWM_STEP e.rand s1 =
              tratar_mensagem PWM_STEP e.rand
                { s1 with fila_wifi := { s1.fila_wifi with itens := [] } } m) ∧
        (tratar_fila PWM_STEP e.rand s1).fila_wifi.itens = [] ∧
        iteracao PWM_STEP sp e = some sq ∧
        sq.fila_wifi.itens = []) ∧
    (∀ (t : Estado) (e : Entrada),
      (iteracao PWM_STEP t e).isSome = true ∨
      ∃ w, t.fifo ++ e.chegadas = [w] ∧ (w % 4294967296) >>> 16 % 65536 = 0xFFFE) := by
  obtain ⟨hp1, hp2, hp3⟩ := partida_preserva esperas s0
  have hcap1 : 1 ≤ (inicia_core1 (inicia_hardware esperas s0)).fila_wifi.capacidade := by
    rw [hp2]; exact hcap
  have hpre : ∀ pre pos : List Entrada, es = pre ++ pos →
      ∃ sp, main PWM_STEP esperas s0 pre = some sp ∧
        laco PWM_STEP sp pos = some s ∧
        sp.fila_wifi.itens = [] ∧
        sp.fila_wifi.capacidade = s0.fila_wifi.capacidade ∧
        descartes_fila_cheia sp = descartes_fila_cheia s0 := by
    intro pre pos hes
    unfold main at h ⊢
    rw [hes, laco_append] at h
    cases hl : laco PWM_STEP (inicia_core1 (inicia_hardware esperas s0)) pre with
    | none => rw [hl] at h; cases h
    | some sp =>
      rw [hl] at h
      obtain ⟨k1, k2, k3⟩ := laco_fila_vazia PWM_STEP _ sp pre hp1 hcap1 hl
      exact ⟨sp, rfl, h, k1, k2.trans hp2, k3.trans hp3⟩
  refine ⟨hp1, ?_, ?_, ?_, iteracao_retorna PWM_STEP⟩
  · obtain ⟨sp, h1, h2, h3, _, h5⟩ := hpre es [] (by simp)
    rw [h] at h1
    cases h1
    exact ⟨h3, h5⟩
  · intro pre pos hes
    obtain ⟨sp, h1, h2, h3, _, h5⟩ := hpre pre pos hes
    exact ⟨sp, h1, h2, h3, h5⟩
  · intro pre e pos hes
    obtain ⟨sp, h1, h2, h3, h4, h5⟩ := hpre pre (e :: pos) hes
    simp only [laco] at h2
    cases hi : iteracao PWM_STEP sp e with
    | none => rw [hi] at h2; cases h2
    | some sq =>
      obtain ⟨⟨j1, _, _⟩, s1, j4, j5, j6, j7, _⟩ :=
        iteracao_fila_vazia PWM_STEP sp sq e h3 (by rw [h4]; exact hcap) hi
      exact ⟨sp, s1, sq, h1, h3, j4, j5.trans h5, j6, j7, hi, j1⟩

/-- Witness for C9: a run of five iterations receiving two status reports, an address
notification, a ping signal and nothing, with a queue of capacity 1. -/
theorem main_fila_vazia_witness :
    Option.map Estado.fila_wifi (main 1000 2
        { fila_wifi := ⟨1, [⟨7, 7⟩]⟩, proximo_envio := 0, mensagem_str := "",
          ip_recebido := false, aleatorio_inicializado := false, ultimo_ip_bin := 0,
          mqtt_iniciado := false, fifo := [], efeitos := [] }
        [ ⟨[1 * 65536 + 0], 0, 100, 100, 100⟩,
          ⟨[2 * 65536 + 1], 0, 200, 200, 200⟩,
          ⟨[0xFFFE * 65536, 0xC0A80164], 0, 300, 300, 300⟩,
          ⟨[0x9999 * 65536], 10, 400, 400, 400⟩,
          ⟨[], 0, 6000000, 6000000, 6000000⟩ ]) = some ⟨1, []⟩ ∧
    Option.map descartes_fila_cheia (main 1000 2
        { fila_wifi := ⟨1, [⟨7, 7⟩]⟩, proximo_envio := 0, mensagem_str := "",
          ip_recebido := false, aleatorio_inicializado := false, ultimo_ip_bin := 0,
          mqtt_iniciado := false, fifo := [], efeitos := [] }
        [ ⟨[1 * 65536 + 0], 0, 100, 100, 100⟩,
          ⟨[2 * 65536 + 1], 0, 200, 200, 200⟩,
          ⟨[0xFFFE * 65536, 0xC0A80164], 0, 300, 300, 300⟩,
          ⟨[0x9999 * 65536], 10, 400, 400, 400⟩,
          ⟨[], 0, 6000000, 6000000, 6000000⟩ ]) = some 0 := by
  have hs : (main 1000 2
        { fila_wifi := ⟨1, [⟨7, 7⟩]⟩, proximo_envio := 0, mensagem_str := "",
          ip_recebido := false, aleatorio_inicializado := false, ultimo_ip_bin := 0,
          mqtt_iniciado := false, fifo := [], efeitos := [] }
        [ ⟨[1 * 65536 + 0], 0, 100, 100, 100⟩,
          ⟨[2 * 65536 + 1], 0, 200, 200, 200⟩,
          ⟨[0xFFFE * 65536, 0xC0A80164], 0, 300, 300, 300⟩,
          ⟨[0x9999 * 65536], 10, 400, 400, 400⟩,
          ⟨[], 0, 6000000, 6000000, 6000000⟩ ]).isSome = true := by
    rfl
  obtain ⟨s, h⟩ := Option.isSome_iff_exists.mp hs
  have hc := main_fila_vazia 1000 2 _ (by decide) _ s h
  have hcap : s.fila_wifi.capacidade = 1 := by
    obtain ⟨sp, h1, h2, _⟩ := hc.2.2.1 _ [] (List.append_nil _).symm
    have e : Option.map (fun t => t.fila_wifi.capacidade) (some s) = some 1 := by
      rw [← h]; rfl
    simpa using e
  rw [h]
  refine ⟨?_, ?_⟩
  · show some s.fila_wifi = some ⟨1, []⟩
    have hi := hc.2.1.1
    cases hq : s.fila_wifi with
    | mk cap itens =>
      rw [hq] at hi hcap
      simp only at hi hcap
      rw [hi, hcap]
  · show some (descartes_fila_cheia s) = some 0
    rw [hc.2.1.2]
    rfl

end MqttNucleo0
